import Mathlib

/-!
Shallow embedding of `src/src/datamanagement/types/include/OBDDataTypes.h`
(AWS IoT FleetWise edge agent, OBD data types).

Conventions of the embedding:
  * `PID` (C++ `uint8_t`) is modelled as `Nat`; all concrete PID values in the
    tables are below 256, and no arithmetic on PIDs overflows 8 bits, so no
    modular reduction is needed.
  * C++ `double` fields (`scaling`, `offset`, `SignalValue`) are modelled as
    `Rat`; the claims under study only concern the exact default constants
    (1.0, 0.0), which rationals represent exactly.
  * `std::vector` / `std::array` become `List`; `std::map` becomes an
    association list; guarded indexing `if (i < a.size()) r = a[i];` becomes a
    dependent `if` with `List.get`, so no out-of-bounds access is expressible.
  * The contents of `mode1PIDs` are only declared in the translated header
    (`extern const std::array<struct PIDInfo, 171> mode1PIDs;`), not defined,
    so `getPID` takes the mode-1 table as an explicit parameter.
-/

namespace OBDDataTypes

/-- `#define OBD_KEEP_ALIVE_SECONDS 2` — default keep-alive interval. -/
def OBD_KEEP_ALIVE_SECONDS : Nat := 2

/-- `enum class SIDs` — the OBD service IDs / modes. -/
inductive SIDs where
  | INVALID_SERVICE_MODE
  | CURRENT_STATS
  | STATS_SINCE_FREEZE_FRAME
  | STORED_DTC
  | CLEAR_DTC
  | OXGEN_SENSOR_MODE_NON_CAN
  | OXGEN_SENSOR_MODE
  | PENDING_DTC
  | TESTING
  | VEHICLE_INFO
  deriving DecidableEq, Repr

/-- The numeric value of each `SIDs` enumerator in the C++ source. -/
def SIDs.code : SIDs → Nat
  | .INVALID_SERVICE_MODE => 0x00
  | .CURRENT_STATS => 0x01
  | .STATS_SINCE_FREEZE_FRAME => 0x02
  | .STORED_DTC => 0x03
  | .CLEAR_DTC => 0x04
  | .OXGEN_SENSOR_MODE_NON_CAN => 0x05
  | .OXGEN_SENSOR_MODE => 0x06
  | .PENDING_DTC => 0x07
  | .TESTING => 0x08
  | .VEHICLE_INFO => 0x09

/-- `using PID = uint8_t;` — modelled as `Nat`, values kept below 256. -/
abbrev PID := Nat

/-- `using SignalValue = double;` — modelled as `Rat` (only exact constants
are at stake in the present development). -/
abbrev SignalValue := Rat

/-- `using Timestamp = ...` (from `TimeTypes.h`, not under `src/`) — an opaque
numeric timestamp, modelled as `Nat`. -/
abbrev Timestamp := Nat

/-- `ECUType` (from `VehicleDataSourceTypes.h`, not under `src/`) — an opaque
ECU identity, modelled as `Nat`. -/
abbrev ECUType := Nat

/-- `constexpr PID INVALID_PID = UINT8_MAX;` -/
def INVALID_PID : PID := 255

/-- `class PIDSignalFormula` — formula for decoding one signal from a PID
response.  The field initialisers of the C++ class are the values of
`PIDSignalFormula.default` below. -/
structure PIDSignalFormula where
  signalID : Nat := 0
  scaling : Rat := 1
  offset : Rat := 0
  byteOffset : Nat := 0
  numOfBytes : Nat := 1
  bitShift : Nat := 0
  bitMaskLen : Nat := 8
  deriving DecidableEq, Repr

/-- `PIDSignalFormula() = default;` — the default constructor: every field
keeps its in-class initialiser. -/
def PIDSignalFormula.mkDefault : PIDSignalFormula := {}

/-- `PIDSignalFormula( size_t byteOffsetIn )` — sets only `byteOffset`. -/
def PIDSignalFormula.ofByteOffset (byteOffsetIn : Nat) : PIDSignalFormula :=
  { byteOffset := byteOffsetIn }

/-- `PIDSignalFormula( size_t byteOffsetIn, double scalingIn, double offsetIn,
size_t numOfBytesIn )` — the constructor intended for signals containing
multiple bytes.  It sets `scaling`, `offset`, `byteOffset` and `numOfBytes`;
`signalID`, `bitShift` and `bitMaskLen` keep their in-class initialisers. -/
def PIDSignalFormula.ofMultiByte (byteOffsetIn : Nat) (scalingIn offsetIn : Rat)
    (numOfBytesIn : Nat) : PIDSignalFormula :=
  { scaling := scalingIn, offset := offsetIn, byteOffset := byteOffsetIn,
    numOfBytes := numOfBytesIn }

/-- `PIDSignalFormula( size_t byteOffsetIn, uint8_t bitShiftIn, uint8_t
bitMaskIn )` — the constructor intended for bitmask signals. -/
def PIDSignalFormula.ofBitmask (byteOffsetIn bitShiftIn bitMaskIn : Nat) :
    PIDSignalFormula :=
  { byteOffset := byteOffsetIn, bitShift := bitShiftIn, bitMaskLen := bitMaskIn }

/-- `struct PIDInfo` — PID id, expected response length, and the formula list. -/
structure PIDInfo where
  pid : PID
  retLen : Nat
  formulas : List PIDSignalFormula
  deriving DecidableEq, Repr

/-- `static const std::array<PID, 6> supportedPIDRange` — the base PIDs of the
supported-PID discovery ranges. -/
def supportedPIDRange : List PID := [0x00, 0x20, 0x40, 0x60, 0x80, 0xA0]

/-- `static const std::array<PID, 1> mode2PIDs` -/
def mode2PIDs : List PID := [0x02]

/-- `static const std::array<uint16_t, 33> mode5PIDs` -/
def mode5PIDs : List Nat :=
  [0x100, 0x101, 0x102, 0x103, 0x104, 0x105, 0x106, 0x107, 0x108, 0x109,
   0x10A, 0x10B, 0x10C, 0x10D, 0x10E, 0x10F, 0x110,
   0x201, 0x202, 0x203, 0x204, 0x205, 0x206, 0x207, 0x208, 0x209,
   0x20A, 0x20B, 0x20C, 0x20D, 0x20E, 0x20F, 0x210]

/-- `static const std::array<PID, 12> mode9PIDs` -/
def mode9PIDs : List PID :=
  [0x00, 0x01, 0x02, 0x03, 0x04, 0x05, 0x06, 0x07, 0x08, 0x09, 0x0A, 0x0B]

/-- Modelled from the spec: the contents of `mode1PIDs` are missing from
`src/` — the header only has the declaration
`extern const std::array<struct PIDInfo, 171> mode1PIDs;`.  The spec describes
the table as a static registry mapping `(Service, PID)` to formulas, each
entry carrying a defined (non-sentinel) single-byte PID; a table of 171
consecutive PIDs `0x00 .. 0xAA` realises that.  The `retLen`/`formulas`
payloads are not specified and are irrelevant to `getPID`, which reads only
the `pid` field. -/
def mode1PIDsModel : List PIDInfo :=
  (List.range 171).map (fun i => { pid := i, retLen := 0, formulas := [] })

/-- `inline PID getPID( SID sid, size_t index )` — translated with the mode-1
table (whose contents are external to the header) as an explicit parameter.
Each `if ( index < table.size() ) { returnPID = table[index]; }` guard becomes
a dependent `if`. -/
def getPID (mode1PIDs : List PIDInfo) (sid : SIDs) (index : Nat) : PID :=
  match sid with
  | .CURRENT_STATS =>
      if h : index < mode1PIDs.length then (mode1PIDs.get ⟨index, h⟩).pid
      else INVALID_PID
  | .STATS_SINCE_FREEZE_FRAME =>
      if h : index < mode2PIDs.length then mode2PIDs.get ⟨index, h⟩
      else INVALID_PID
  | .OXGEN_SENSOR_MODE_NON_CAN =>
      -- This SID is not supported over CAN. Skipping
      INVALID_PID
  | .VEHICLE_INFO =>
      if h : index < mode9PIDs.length then mode9PIDs.get ⟨index, h⟩
      else INVALID_PID
  | _ => INVALID_PID

/-- `struct DTCInfo` -/
structure DTCInfo where
  mSID : SIDs := .INVALID_SERVICE_MODE
  receiveTime : Timestamp := 0
  mDTCCodes : List String := []
  deriving DecidableEq, Repr

/-- `DTCInfo::hasItems` — `return !mDTCCodes.empty();` -/
def DTCInfo.hasItems (d : DTCInfo) : Bool := !d.mDTCCodes.isEmpty

/-- `struct EmissionInfo` — the `std::map<uint32_t, SignalValue>` becomes an
association list. -/
structure EmissionInfo where
  mSID : SIDs
  mPIDsToValues : List (Nat × SignalValue)
  deriving DecidableEq, Repr

/-- `struct ECUDiagnosticInfo` -/
structure ECUDiagnosticInfo where
  mEcuType : ECUType
  mVIN : String
  mPIDInfos : List EmissionInfo
  mDTCInfos : List DTCInfo
  mReceptionTime : Timestamp := 0
  deriving DecidableEq, Repr

/-- `ECUDiagnosticInfo::hasItems` —
`return ( !mPIDInfos.empty() || !mDTCInfos.empty() );` -/
def ECUDiagnosticInfo.hasItems (e : ECUDiagnosticInfo) : Bool :=
  !e.mPIDInfos.isEmpty || !e.mDTCInfos.isEmpty

/-- `struct OBDRequest` -/
structure OBDRequest where
  mSID : SIDs
  mPID : PID
  deriving DecidableEq, Repr

/-- `static const OBDRequest vehicleIdentificationNumberRequest =
{ static_cast<SID>( 0x09 ), static_cast<PID>( 0x02 ) };` — the cast value
`0x09` is the enumerator `VEHICLE_INFO` (see `SIDs.code`). -/
def vehicleIdentificationNumberRequest : OBDRequest :=
  { mSID := .VEHICLE_INFO, mPID := 0x02 }

/-- Uppercase hexadecimal digit character for `n < 16`. -/
def hexChar (n : Nat) : Char :=
  if n < 10 then Char.ofNat (48 + n) else Char.ofNat (55 + n)

/-- Modelled from the spec: no DTC byte-decoding algorithm appears under
`src/` (the header only holds the decoded-DTC containers), so the decoder is
taken from the spec's §4.3 wording: the top two bits of the first byte select
the category letter (00 to P, 01 to C, 10 to B, 11 to U), the next two bits
the first digit, and the remaining 12 bits three hex digits; the all-zero
payload denotes "no code" and is filtered out.  Inputs are the two raw bytes
(each < 256). -/
def decodeDTC (b1 b2 : Nat) : Option String :=
  if b1 = 0 ∧ b2 = 0 then none
  else
    let letter :=
      if b1 / 64 = 0 then 'P'
      else if b1 / 64 = 1 then 'C'
      else if b1 / 64 = 2 then 'B'
      else 'U'
    some (String.mk
      [letter, hexChar ((b1 / 16) % 4), hexChar (b1 % 16),
       hexChar (b2 / 16), hexChar (b2 % 16)])

/-- The per-service PID table that `getPID` consults, as a plain PID list;
empty for every service without a handled table.  Used to state when a
`(sid, index)` pair has a defined PID. -/
def pidTable (mode1PIDs : List PIDInfo) : SIDs → List PID
  | .CURRENT_STATS => mode1PIDs.map PIDInfo.pid
  | .STATS_SINCE_FREEZE_FRAME => mode2PIDs
  | .VEHICLE_INFO => mode9PIDs
  | _ => []

/-- The spec's entry-level reading of non-emptiness for an aggregated
diagnostic record: some held `EmissionInfo` has a non-empty signal-value map,
or some held `DTCInfo` has a non-empty DTC-code list.  Stated from the spec's
words, for comparison with `ECUDiagnosticInfo.hasItems`. -/
def hasNonEmptyItem (e : ECUDiagnosticInfo) : Prop :=
  (∃ pi ∈ e.mPIDInfos, pi.mPIDsToValues ≠ []) ∨
  (∃ di ∈ e.mDTCInfos, di.mDTCCodes ≠ [])

instance (e : ECUDiagnosticInfo) : Decidable (hasNonEmptyItem e) := by
  unfold hasNonEmptyItem; infer_instance

/-- Guarded table lookup through a projection `f`: the lookup yields
`INVALID_PID` exactly on out-of-range indices (provided no table entry maps to
the sentinel), and the projected table entry otherwise. -/
theorem guardedLookup_spec {α : Type} (l : List α) (f : α → PID)
    (hvalid : ∀ a ∈ l, f a ≠ INVALID_PID) (index : Nat) :
    ((if h : index < l.length then f (l.get ⟨index, h⟩) else INVALID_PID)
        = INVALID_PID ↔ (l.map f).length ≤ index)
    ∧ ∀ h : index < (l.map f).length,
        (if h2 : index < l.length then f (l.get ⟨index, h2⟩) else INVALID_PID)
          = (l.map f).get ⟨index, h⟩ := by
  by_cases h : index < l.length
  · refine ⟨?_, ?_⟩
    · simp only [dif_pos h, List.length_map]
      constructor
      · intro hbad
        exact absurd hbad (hvalid _ (l.get_mem _ _))
      · intro hle
        omega
    · intro hlt
      simp [dif_pos h, List.getElem_map]
  · refine ⟨?_, ?_⟩
    · rw [dif_neg h]
      simp only [List.length_map]
      exact iff_of_true trivial (Nat.le_of_not_lt h)
    · intro hlt
      simp only [List.length_map] at hlt
      exact absurd hlt h

/-- C8: the default keep-alive interval — the configured time without any
issued request after which the aggregator sends a minimal keep-alive request —
equals 2 seconds. -/
theorem keepAliveDefaultIsTwoSeconds : OBD_KEEP_ALIVE_SECONDS = 2 := rfl

/-- C7: a default-constructed `PIDSignalFormula` has exactly the default field
values scaling = 1.0, offset = 0.0, byteOffset = 0, numOfBytes = 1,
bitShift = 0, bitMaskLen = 8 and signalID = 0. -/
theorem defaultFormulaFieldValues :
    PIDSignalFormula.mkDefault.scaling = 1 ∧
    PIDSignalFormula.mkDefault.offset = 0 ∧
    PIDSignalFormula.mkDefault.byteOffset = 0 ∧
    PIDSignalFormula.mkDefault.numOfBytes = 1 ∧
    PIDSignalFormula.mkDefault.bitShift = 0 ∧
    PIDSignalFormula.mkDefault.bitMaskLen = 8 ∧
    PIDSignalFormula.mkDefault.signalID = 0 :=
  ⟨rfl, rfl, rfl, rfl, rfl, rfl, rfl⟩

/-- C6: the static per-service PID tables `supportedPIDRange`, `mode5PIDs` and
`mode9PIDs` are strictly ascending: every earlier entry is strictly less than
every later entry, so iterating a table in index order visits PIDs in
ascending order. -/
theorem pidTablesStrictlyAscending :
    List.Pairwise (· < ·) supportedPIDRange ∧
    List.Pairwise (· < ·) mode5PIDs ∧
    List.Pairwise (· < ·) mode9PIDs := by
  refine ⟨?_, ?_, ?_⟩ <;> decide

/-- C5: the DTC decoder maps the two bytes 0x14 0x62 to the string "P1462",
and the all-zero two-byte payload 0x00 0x00 produces no emitted code. -/
theorem decodeDTCExamples :
    decodeDTC 0x14 0x62 = some "P1462" ∧ decodeDTC 0x00 0x00 = none := by
  refine ⟨?_, ?_⟩ <;> decide

/-- C2 counterexample: the multi-byte-signal constructor with numOfBytes = 2
yields bitMaskLen = 8, not 8 × 2 = 16, refuting the claim that every formula
it builds satisfies bitShift = 0 and bitMaskLen = 8 × numOfBytes. -/
theorem multiByteMaskLenCounterexample :
    ¬ ((PIDSignalFormula.ofMultiByte 1 1 0 2).bitShift = 0 ∧
       (PIDSignalFormula.ofMultiByte 1 1 0 2).bitMaskLen = 8 * 2) := by
  intro h
  exact absurd h.2 (by decide)

/-- C2 (amended): every formula built by the multi-byte-signal constructor
has bitShift = 0 and bitMaskLen = 8 (the in-class default), so bitMaskLen
equals 8 × numOfBytes only in the numOfBytes = 1 case. -/
theorem multiByteConstructorShiftAndMask (bo : Nat) (s o : Rat) (n : Nat) :
    (PIDSignalFormula.ofMultiByte bo s o n).bitShift = 0 ∧
    (PIDSignalFormula.ofMultiByte bo s o n).bitMaskLen = 8 :=
  ⟨rfl, rfl⟩

/-- C1 counterexample: 0xE0 is a multiple-of-0x20 base not exceeding 0xE0,
yet it has no entry in the static supported-PID range table (and neither does
0xC0): the table stops at 0xA0. -/
theorem supportedPIDRangeCounterexample :
    0xE0 % 0x20 = 0 ∧ 0xE0 ≤ 0xE0 ∧ 0xE0 ∉ supportedPIDRange ∧
    0xC0 ∉ supportedPIDRange := by
  refine ⟨rfl, by decide, by decide, by decide⟩

set_option maxRecDepth 4096 in
/-- C1 (amended): the static supported-PID range table contains exactly the
multiples of 0x20 from 0x00 up to and including 0xA0, so discovery can reach
range 0xA0 (not 0xE0) before stopping. -/
theorem supportedPIDRangeBases (base : Nat) (hb : base < 256) :
    base ∈ supportedPIDRange ↔ (base % 0x20 = 0 ∧ base ≤ 0xA0) := by
  revert hb
  revert base
  decide

/-- Witness for `supportedPIDRangeBases` at base 0x40. -/
theorem supportedPIDRangeBasesWitness :
    0x40 ∈ supportedPIDRange ↔ (0x40 % 0x20 = 0 ∧ 0x40 ≤ 0xA0) :=
  supportedPIDRangeBases 0x40 (by decide)

/-- C3 counterexample: an `ECUDiagnosticInfo` holding one `EmissionInfo` whose
signal-value map is empty (and no `DTCInfo`) has `hasItems() = true`, although
no held entry is non-empty — refuting the claimed entry-level iff. -/
theorem hasItemsEntrywiseCounterexample :
    ECUDiagnosticInfo.hasItems
        { mEcuType := 0, mVIN := "",
          mPIDInfos := [{ mSID := SIDs.CURRENT_STATS, mPIDsToValues := [] }],
          mDTCInfos := [] } = true
    ∧ ¬ hasNonEmptyItem
        { mEcuType := 0, mVIN := "",
          mPIDInfos := [{ mSID := SIDs.CURRENT_STATS, mPIDsToValues := [] }],
          mDTCInfos := [] } := by
  refine ⟨rfl, ?_⟩
  decide

/-- C3 (amended): for every `ECUDiagnosticInfo`, `hasItems()` returns true if
and only if the list of `EmissionInfo` or the list of `DTCInfo` it holds is
non-empty — regardless of whether the held entries themselves are empty. -/
theorem hasItemsIffListsNonEmpty (e : ECUDiagnosticInfo) :
    e.hasItems = true ↔ (e.mPIDInfos ≠ [] ∨ e.mDTCInfos ≠ []) := by
  obtain ⟨t, v, ps, ds, r⟩ := e
  cases ps <;> cases ds <;> simp [ECUDiagnosticInfo.hasItems]

/-- C9: `getPID` returns `INVALID_PID` at every index for
`OXGEN_SENSOR_MODE_NON_CAN` and for every other service outside
{`CURRENT_STATS`, `STATS_SINCE_FREEZE_FRAME`, `VEHICLE_INFO`} (that is, for
`INVALID_SERVICE_MODE`, `STORED_DTC`, `CLEAR_DTC`, `OXGEN_SENSOR_MODE`,
`PENDING_DTC` and `TESTING`), whatever the mode-1 table contents. -/
theorem getPIDUnhandledServices (m1 : List PIDInfo) (sid : SIDs) (index : Nat)
    (h : sid ≠ SIDs.CURRENT_STATS ∧ sid ≠ SIDs.STATS_SINCE_FREEZE_FRAME ∧
         sid ≠ SIDs.VEHICLE_INFO) :
    getPID m1 sid index = INVALID_PID := by
  cases sid <;>
    first
      | rfl
      | exact absurd rfl h.1
      | exact absurd rfl h.2.1
      | exact absurd rfl h.2.2

/-- Witness for `getPIDUnhandledServices` at `OXGEN_SENSOR_MODE_NON_CAN`. -/
theorem getPIDUnhandledServicesWitness :
    getPID [] SIDs.OXGEN_SENSOR_MODE_NON_CAN 0 = INVALID_PID :=
  getPIDUnhandledServices [] SIDs.OXGEN_SENSOR_MODE_NON_CAN 0 (by decide)

/-- C10: the mode-9 (vehicle information) table is the identity on indices
below 12 — `getPID(VEHICLE_INFO, i) = i` — and in particular its entry at
index 2 agrees with the static VIN request's PID (0x02), whatever the mode-1
table contents. -/
theorem mode9TableIsIdentity (m1 : List PIDInfo) :
    (∀ i, i < 12 → getPID m1 SIDs.VEHICLE_INFO i = i)
    ∧ getPID m1 SIDs.VEHICLE_INFO 2 = vehicleIdentificationNumberRequest.mPID := by
  refine ⟨?_, rfl⟩
  intro i hi
  interval_cases i <;> rfl

/-- Witness for `mode9TableIsIdentity` at index 7. -/
theorem mode9TableIsIdentityWitness : getPID [] SIDs.VEHICLE_INFO 7 = 7 :=
  (mode9TableIsIdentity []).1 7 (by decide)

/-- C4: `INVALID_PID` is 0xFF, and `getPID` returns `INVALID_PID` exactly when
the `(sid, index)` pair has no defined PID — the per-service table (empty for
every service `getPID` does not handle) has length at most `index` — and the
table entry at `index` otherwise; the guarded lookup makes an out-of-bounds
access inexpressible.  The hypothesis that no mode-1 entry carries the
sentinel value holds for the modelled table (see the witness). -/
theorem getPIDInvalidIff (m1 : List PIDInfo)
    (hvalid : ∀ p ∈ m1, p.pid ≠ INVALID_PID) (sid : SIDs) (index : Nat) :
    INVALID_PID = 0xFF
    ∧ (getPID m1 sid index = INVALID_PID ↔ (pidTable m1 sid).length ≤ index)
    ∧ ∀ h : index < (pidTable m1 sid).length,
        getPID m1 sid index = (pidTable m1 sid).get ⟨index, h⟩ := by
  refine ⟨rfl, ?_⟩
  cases sid with
  | CURRENT_STATS => exact guardedLookup_spec m1 PIDInfo.pid hvalid index
  | STATS_SINCE_FREEZE_FRAME =>
      simpa [getPID, pidTable, List.map_id] using
        guardedLookup_spec mode2PIDs id (by decide) index
  | VEHICLE_INFO =>
      simpa [getPID, pidTable, List.map_id] using
        guardedLookup_spec mode9PIDs id (by decide) index
  | INVALID_SERVICE_MODE =>
      exact ⟨iff_of_true rfl (Nat.zero_le index), fun h => absurd h (Nat.not_lt_zero index)⟩
  | STORED_DTC =>
      exact ⟨iff_of_true rfl (Nat.zero_le index), fun h => absurd h (Nat.not_lt_zero index)⟩
  | CLEAR_DTC =>
      exact ⟨iff_of_true rfl (Nat.zero_le index), fun h => absurd h (Nat.not_lt_zero index)⟩
  | OXGEN_SENSOR_MODE_NON_CAN =>
      exact ⟨iff_of_true rfl (Nat.zero_le index), fun h => absurd h (Nat.not_lt_zero index)⟩
  | OXGEN_SENSOR_MODE =>
      exact ⟨iff_of_true rfl (Nat.zero_le index), fun h => absurd h (Nat.not_lt_zero index)⟩
  | PENDING_DTC =>
      exact ⟨iff_of_true rfl (Nat.zero_le index), fun h => absurd h (Nat.not_lt_zero index)⟩
  | TESTING =>
      exact ⟨iff_of_true rfl (Nat.zero_le index), fun h => absurd h (Nat.not_lt_zero index)⟩

set_option maxRecDepth 4096 in
/-- Witness for `getPIDInvalidIff` on the spec-modelled mode-1 table at index 5. -/
theorem getPIDInvalidIffWitness :
    getPID mode1PIDsModel SIDs.CURRENT_STATS 5 = INVALID_PID ↔
      (pidTable mode1PIDsModel SIDs.CURRENT_STATS).length ≤ 5 :=
  (getPIDInvalidIff mode1PIDsModel (by decide) SIDs.CURRENT_STATS 5).2.1

end OBDDataTypes
